import Mathlib

/-
Verification of the bedtimestories generation scripts.

The development shallowly embeds the three Python scripts
  .codex/skills/generate-story/scripts/generate-image.py
  .codex/skills/generate-story/scripts/generate-video.py
  .codex/skills/generate-story/scripts/run-generate-story.py
as pure Lean functions.  External effects (environment variables, the
filesystem, the Replicate HTTP API, subprocesses, curl, ffmpeg, hashing
and base64 primitives from the Python standard library) are supplied by
explicit oracle records; each script run is a function of its arguments
and such an oracle, returning its outcome together with the ordered list
of externally visible events it performed (subprocess launches, HTTP
requests, file writes and removals).  Process termination via
SystemExit or an uncaught exception is an explicit error value.
-/

set_option maxRecDepth 4000

/-! ## Python string primitives used by the scripts -/

/-- Characters removed by Python str.strip() for ASCII input. -/
def isPySpaceChar (c : Char) : Bool :=
  c = ' ' || c = '\t' || c = '\n' || c = '\r' || c = '\x0b' || c = '\x0c'

/-- Python str.strip() (ASCII whitespace). -/
def pyStrip (s : String) : String :=
  String.mk (((s.data.dropWhile isPySpaceChar).reverse.dropWhile isPySpaceChar).reverse)

/-- Python str.rstrip() (ASCII whitespace). -/
def pyRstrip (s : String) : String :=
  String.mk ((s.data.reverse.dropWhile isPySpaceChar).reverse)

/-- Python str.rstrip(single-slash), used for base_url.rstrip of the slash. -/
def rstripSlash (s : String) : String :=
  String.mk ((s.data.reverse.dropWhile (fun c => c = '/')).reverse)

/-- Digit tail of Python int(str) parsing: digits with single underscores
allowed between digits, accumulating the value. -/
def pyDigits : Nat → List Char → Option Nat
  | acc, [] => some acc
  | acc, c :: cs =>
    if c.isDigit then pyDigits (acc * 10 + (c.toNat - 48)) cs
    else if c = '_' then
      match cs with
      | [] => none
      | c2 :: cs2 => if c2.isDigit then pyDigits (acc * 10 + (c2.toNat - 48)) cs2 else none
    else none

/-- Nonempty digit run for Python int(str) parsing. -/
def pyDigitsStart : List Char → Option Nat
  | [] => none
  | c :: cs => if c.isDigit then pyDigits (c.toNat - 48) cs else none

/-- Python int(str): optional surrounding whitespace, optional sign, then a
nonempty digit run with single underscores permitted between digits.
Returns none where Python raises ValueError. -/
def pyParseInt (s : String) : Option Int :=
  match (pyStrip s).data with
  | [] => none
  | c :: cs =>
    if c = '+' then (pyDigitsStart cs).map (fun n => (n : Int))
    else if c = '-' then (pyDigitsStart cs).map (fun n => -(n : Int))
    else (pyDigitsStart (c :: cs)).map (fun n => (n : Int))

/-- Python truthiness of an optional string (None and the empty string are falsy). -/
def truthyS (o : Option String) : Bool :=
  match o with
  | none => false
  | some s => decide (s ≠ "")

/-- Python truthiness of an optional int (None and 0 are falsy). -/
def truthyI (o : Option Int) : Bool :=
  match o with
  | none => false
  | some n => decide (n ≠ 0)

/-- Python `a or b` on an optional string against a string default. -/
def orS (a : Option String) (b : String) : String :=
  match a with
  | none => b
  | some s => if s = "" then b else s

/-! ## read_poll_seconds (generate-image.py lines 34-46, generate-video.py lines 33-45)

The two copies differ only in the environment variable name, the default
(3 for image, 10 for video) and the warning text, so the shared body is
modelled once, parameterised by the default.  The returned Bool records
whether a warning line was printed to stderr. -/

/-- The stripped raw value of the poll-seconds environment variable
(os.environ.get(name, "").strip()). -/
def rawOf (envVal : Option String) : String :=
  pyStrip (envVal.getD "")

/-- read_poll_seconds, common body of both generators.  envVal is the value of
the poll-seconds environment variable (none when unset); returns the chosen
interval together with whether a warning was logged. -/
def read_poll_seconds (envVal : Option String) (defaultSecs : Int) : Int × Bool :=
  let raw := rawOf envVal
  if raw = "" then (defaultSecs, false)
  else
    match pyParseInt raw with
    | none => (defaultSecs, true)
    | some v => if v < 1 then (defaultSecs, true) else (v, false)

/-- read_poll_seconds of generate-image.py (STORY_IMAGE_POLL_SECONDS, default 3). -/
def image_read_poll_seconds (envVal : Option String) : Int × Bool :=
  read_poll_seconds envVal 3

/-- read_poll_seconds of generate-video.py (STORY_VIDEO_POLL_SECONDS, default 10). -/
def video_read_poll_seconds (envVal : Option String) : Int × Bool :=
  read_poll_seconds envVal 10

/-! ## wait_for_prediction (generate-image.py lines 77-89, generate-video.py lines 76-88)

Identical in both scripts except for the stderr progress text.  The
sequence of provider states returned by successive GET polls is an
oracle stream; the loop is modelled with an explicit fuel argument:
none means the loop is still polling after that many polls. -/

/-- A polled prediction as far as the loop inspects it: its status string and
its optional error field. -/
structure Prediction where
  status : String
  error : Option String
  deriving DecidableEq

/-- The error text raised on a failed or canceled prediction:
pred.get("error") or "Prediction did not succeed.", wrapped in the
RuntimeError message f-string. -/
def predErrMsg (p : Prediction) : String :=
  "Prediction " ++ p.status ++ ": " ++
    (match p.error with
     | some e => if e = "" then "Prediction did not succeed." else e
     | none => "Prediction did not succeed.")

/-- A status on which the polling loop stops. -/
def isTerminal (p : Prediction) : Prop :=
  p.status = "succeeded" ∨ p.status = "failed" ∨ p.status = "canceled"

instance (p : Prediction) : Decidable (isTerminal p) := by
  unfold isTerminal; infer_instance

/-- wait_for_prediction: poll the stream from index i with the given fuel.
Returns some (Except.ok pred) on "succeeded", some (Except.error msg) on
"failed" or "canceled", and recurses otherwise; none means no terminal
state was observed within the fuel. -/
def wait_for_prediction (stream : Nat → Prediction) : Nat → Nat → Option (Except String Prediction)
  | _, 0 => none
  | i, n + 1 =>
    if (stream i).status = "succeeded" then some (Except.ok (stream i))
    else if (stream i).status = "failed" ∨ (stream i).status = "canceled" then
      some (Except.error (predErrMsg (stream i)))
    else wait_for_prediction stream (i + 1) n

theorem wait_none (stream : Nat → Prediction) :
    ∀ (n i : Nat), (∀ k, k < n → ¬ isTerminal (stream (i + k))) →
      wait_for_prediction stream i n = none := by
  intro n
  induction n with
  | zero => intro i _; rfl
  | succ m ih =>
    intro i h
    have h0 : ¬ isTerminal (stream i) := by
      have := h 0 (Nat.succ_pos m)
      simpa using this
    unfold wait_for_prediction
    rw [if_neg, if_neg]
    · exact ih (i + 1) (fun k hk => by
        have := h (k + 1) (Nat.succ_lt_succ hk)
        simpa [Nat.add_assoc, Nat.add_comm 1 k] using this)
    · intro hfc
      exact h0 (Or.inr hfc)
    · intro hs
      exact h0 (Or.inl hs)

theorem wait_first (stream : Nat → Prediction) :
    ∀ (n i k : Nat), k < n → isTerminal (stream (i + k)) →
      (∀ j, j < k → ¬ isTerminal (stream (i + j))) →
      wait_for_prediction stream i n =
        some (if (stream (i + k)).status = "succeeded" then Except.ok (stream (i + k))
              else Except.error (predErrMsg (stream (i + k)))) := by
  intro n
  induction n with
  | zero => intro i k hk; exact absurd hk (Nat.not_lt_zero k)
  | succ m ih =>
    intro i k hk hterm hmin
    match k with
    | 0 =>
      simp only [Nat.add_zero] at hterm ⊢
      unfold wait_for_prediction
      rcases hterm with hs | hfc
      · rw [if_pos hs, if_pos hs]
      · have hns : (stream i).status ≠ "succeeded" := by
          rcases hfc with h1 | h1 <;> simp [h1]
        rw [if_neg hns, if_pos hfc, if_neg hns]
    | k' + 1 =>
      have h0 : ¬ isTerminal (stream i) := by
        have := hmin 0 (Nat.succ_pos k')
        simpa using this
      unfold wait_for_prediction
      rw [if_neg, if_neg]
      · have hterm' : isTerminal (stream (i + 1 + k')) := by
          have : i + 1 + k' = i + (k' + 1) := by omega
          rw [this]; exact hterm
        have hmin' : ∀ j, j < k' → ¬ isTerminal (stream (i + 1 + j)) := by
          intro j hj
          have : i + 1 + j = i + (j + 1) := by omega
          rw [this]
          exact hmin (j + 1) (Nat.succ_lt_succ hj)
        have := ih (i + 1) k' (Nat.lt_of_succ_lt_succ hk) hterm' hmin'
        have heq : i + 1 + k' = i + (k' + 1) := by omega
        rw [heq] at this
        exact this
      · intro hfc; exact h0 (Or.inr hfc)
      · intro hs; exact h0 (Or.inl hs)

theorem wait_some_inv (stream : Nat → Prediction) :
    ∀ (n i : Nat) (r : Except String Prediction),
      wait_for_prediction stream i n = some r →
      ∃ k, k < n ∧ isTerminal (stream (i + k)) ∧ ∀ j, j < k → ¬ isTerminal (stream (i + j)) := by
  intro n
  induction n with
  | zero => intro i r h; exact absurd h (by simp [wait_for_prediction])
  | succ m ih =>
    intro i r h
    by_cases hterm : isTerminal (stream i)
    · exact ⟨0, Nat.succ_pos m, by simpa using hterm, fun j hj => absurd hj (Nat.not_lt_zero j)⟩
    · have hns : (stream i).status ≠ "succeeded" := fun hs => hterm (Or.inl hs)
      have hnfc : ¬ ((stream i).status = "failed" ∨ (stream i).status = "canceled") :=
        fun hfc => hterm (Or.inr hfc)
      unfold wait_for_prediction at h
      rw [if_neg hns, if_neg hnfc] at h
      obtain ⟨k, hk, ht, hm⟩ := ih (i + 1) r h
      refine ⟨k + 1, Nat.succ_lt_succ hk, ?_, ?_⟩
      · have : i + (k + 1) = i + 1 + k := by omega
        rw [this]; exact ht
      · intro j hj
        match j with
        | 0 => simpa using hterm
        | j' + 1 =>
          have : i + (j' + 1) = i + 1 + j' := by omega
          rw [this]
          exact hm j' (Nat.lt_of_succ_lt_succ hj)

/-- C6: wait_for_prediction (identical in both generators) keeps polling while
no terminal status is seen (for every fuel bound, so there is no iteration
limit or timeout), returns the prediction exactly when the first terminal
status observed is "succeeded", and produces the RuntimeError message built
from the provider-supplied error text exactly when the first terminal status
observed is "failed" or "canceled". -/
theorem wait_for_prediction_spec (stream : Nat → Prediction) (n : Nat) :
    ((∀ k, k < n → ¬ isTerminal (stream k)) → wait_for_prediction stream 0 n = none) ∧
    (∀ i, i < n → isTerminal (stream i) → (∀ j, j < i → ¬ isTerminal (stream j)) →
      wait_for_prediction stream 0 n =
        some (if (stream i).status = "succeeded" then Except.ok (stream i)
              else Except.error (predErrMsg (stream i)))) ∧
    (∀ r, wait_for_prediction stream 0 n = some r →
      ∃ i, i < n ∧ isTerminal (stream i) ∧ ∀ j, j < i → ¬ isTerminal (stream j)) := by
  refine ⟨?_, ?_, ?_⟩
  · intro h
    exact wait_none stream n 0 (fun k hk => by simpa using h k hk)
  · intro i hi hterm hmin
    have := wait_first stream n 0 i hi (by simpa using hterm)
      (fun j hj => by simpa using hmin j hj)
    simpa using this
  · intro r h
    obtain ⟨k, hk, ht, hm⟩ := wait_some_inv stream n 0 r h
    exact ⟨k, hk, by simpa using ht, fun j hj => by simpa using hm j hj⟩

/-- Stream used to witness the polling theorem: two pending polls, then success. -/
def witStream : Nat → Prediction :=
  fun i => if i < 2 then ⟨"processing", none⟩ else ⟨"succeeded", none⟩

/-- Witness for C6 at a concrete stream: with two pending polls followed by a
succeeded poll, five polls of fuel return the succeeded prediction. -/
theorem wait_for_prediction_spec_witness :
    wait_for_prediction witStream 0 5 = some (Except.ok ⟨"succeeded", none⟩) := by
  have h := (wait_for_prediction_spec witStream 5).2.1 2 (by decide) (by decide)
    (by decide)
  simpa [witStream] using h

/-- C3 counterexample: when the poll-seconds variable is unset (or set empty),
read_poll_seconds returns the default silently, with no warning logged, in
both generators. -/
theorem read_poll_seconds_unset_silent :
    image_read_poll_seconds none = (3, false) ∧
    video_read_poll_seconds (some "") = (10, false) := by
  constructor <;> rfl

/-- C3 (amended): read_poll_seconds returns the parsed value when the variable
parses as an integer at least 1, and otherwise returns the component default
(3 for the image generator, 10 for the video generator); a warning is logged
exactly when the variable was set to a nonempty non-integer or to an integer
below 1, while an unset or empty variable falls back silently.  The function
is total, so it never raises or terminates the process. -/
theorem read_poll_seconds_spec (envVal : Option String) (d : Int) :
    (rawOf envVal = "" → read_poll_seconds envVal d = (d, false)) ∧
    (∀ n, rawOf envVal ≠ "" → pyParseInt (rawOf envVal) = some n → 1 ≤ n →
      read_poll_seconds envVal d = (n, false)) ∧
    (rawOf envVal ≠ "" → pyParseInt (rawOf envVal) = none →
      read_poll_seconds envVal d = (d, true)) ∧
    (∀ n, rawOf envVal ≠ "" → pyParseInt (rawOf envVal) = some n → n < 1 →
      read_poll_seconds envVal d = (d, true)) ∧
    image_read_poll_seconds envVal = read_poll_seconds envVal 3 ∧
    video_read_poll_seconds envVal = read_poll_seconds envVal 10 := by
  refine ⟨?_, ?_, ?_, ?_, rfl, rfl⟩
  · intro h
    simp [read_poll_seconds, h]
  · intro n hne hp h1
    simp [read_poll_seconds, hne, hp]
    omega
  · intro hne hp
    simp [read_poll_seconds, hne, hp]
  · intro n hne hp h1
    simp [read_poll_seconds, hne, hp]
    omega

/-- Witness for C3 at concrete values: a value of 7 is used as given, a value
of 0 falls back to the default with a warning, in both generators. -/
theorem read_poll_seconds_spec_witness :
    read_poll_seconds (some " 7 ") 3 = (7, false) ∧
    read_poll_seconds (some "0") 10 = (10, true) := by
  constructor
  · exact (read_poll_seconds_spec (some " 7 ") 3).2.1 7 (by decide) (by decide) (by decide)
  · exact (read_poll_seconds_spec (some "0") 10).2.2.2.1 0 (by decide) (by decide) (by decide)

/-! ## The Replicate generators (generate-image.py, generate-video.py)

Model slugs and payloads are taken verbatim from the scripts.  The whole
of run_prediction (create request, polling, download) is abstracted into
a single oracle function runPred from model slug and payload to either
an exception message or the pair (local path, output url); generate's
control flow over it (including the image fallback) is embedded exactly.
The payload modelled is the dict bound to the "input" key of the request
body, represented as an ordered key-value list. -/

/-- DEFAULT_MODEL of generate-image.py. -/
def IMG_DEFAULT_MODEL : String := "google/nano-banana-2"

/-- FALLBACK_MODEL of generate-image.py. -/
def FALLBACK_MODEL : String := "black-forest-labs/flux-1.1-pro"

/-- DEFAULT_MODEL of generate-video.py. -/
def VIDEO_DEFAULT_MODEL : String := "pixverse/pixverse-v5"

/-- A JSON value as it occurs inside the generators' request payloads. -/
inductive JVal where
  | str (s : String)
  | num (n : Int)
  | arr (l : List String)
  deriving DecidableEq

/-- The input dict of a Replicate prediction request, in insertion order. -/
abbrev ReplicatePayload := List (String × JVal)

/-- First value bound to a key in a payload. -/
def lookupKey (k : String) : ReplicatePayload → Option JVal
  | [] => none
  | (k2, v) :: rest => if k2 = k then some v else lookupKey k rest

/-- primary_payload of generate-image.py generate (its input dict). -/
def imagePrimaryPayload (prompt : String) (imageInput : List String) : ReplicatePayload :=
  [("prompt", JVal.str prompt),
   ("image_input", JVal.arr imageInput),
   ("aspect_ratio", JVal.str "16:9"),
   ("resolution", JVal.str "1K"),
   ("output_format", JVal.str "jpg"),
   ("safety_filter_level", JVal.str "block_only_high")]

/-- fallback_payload of generate-image.py generate (its input dict). -/
def imageFallbackPayload (prompt : String) : ReplicatePayload :=
  [("prompt", JVal.str prompt),
   ("aspect_ratio", JVal.str "3:2"),
   ("output_format", JVal.str "png")]

/-- payload of generate-video.py generate (its input dict). -/
def videoPayload (prompt : String) (imageDataUri : String) : ReplicatePayload :=
  [("prompt", JVal.str prompt),
   ("image", JVal.str imageDataUri),
   ("aspect_ratio", JVal.str "16:9"),
   ("duration", JVal.num 5),
   ("quality", JVal.str "540p"),
   ("effect", JVal.str "None")]

/-- Oracle for a generator run: environment, filesystem, the mime/base64
encoding of an existing file, and the outcome of a full run_prediction
(create plus poll plus download) per model and payload. -/
structure GWorld where
  getenv : String → Option String
  pathExists : String → Bool
  dataUriOf : String → String
  runPred : String → ReplicatePayload → Except String (String × String)

/-- The message raised by require_env. -/
def requireEnvMsg (name : String) : String :=
  name ++ " is required (export it in the current environment; dotfiles may not be sourced)."

/-- Process termination of a generator: SystemExit with a message (exit code 1)
or an uncaught exception reaching the interpreter (also nonzero exit). -/
inductive GExit where
  | sysExit (msg : String)
  | exc (msg : String)
  deriving DecidableEq

/-- Outcome of a generator run: the prediction requests actually sent to the
provider, in order, and either a termination or the (path, url, model) triple. -/
structure GRun where
  calls : List (String × ReplicatePayload)
  result : Except GExit (String × String × String)

/-- to_data_uri: raises SystemExit naming the path when it does not exist,
otherwise builds the data URI (mime guessing and base64 via the oracle). -/
def to_data_uri (w : GWorld) (path : String) : Except String String :=
  if w.pathExists path then Except.ok (w.dataUriOf path)
  else Except.error ("Reference image not found: " ++ path)

/-- The list comprehension [to_data_uri(path) for path in image_paths]:
converts in order, stopping at the first missing path. -/
def convertRefs (w : GWorld) : List String → Except String (List String)
  | [] => Except.ok []
  | p :: ps =>
    match to_data_uri w p with
    | Except.error e => Except.error e
    | Except.ok u =>
      match convertRefs w ps with
      | Except.error e => Except.error e
      | Except.ok us => Except.ok (u :: us)

/-- The REPLICATE_API_TOKEN require_env check passes (generators strip the value). -/
def tokenOk (w : GWorld) : Prop :=
  pyStrip ((w.getenv "REPLICATE_API_TOKEN").getD "") ≠ ""

instance (w : GWorld) : Decidable (tokenOk w) := by
  unfold tokenOk; infer_instance

/-- generate of generate-image.py: token check, reference conversion, primary
prediction, and on any exception from the primary run a single fallback to
FALLBACK_MODEL with the adjusted payload, attempted only when the requested
model is DEFAULT_MODEL. -/
def image_generate (w : GWorld) (prompt : String) (imagePaths : List String)
    (model : String) : GRun :=
  if pyStrip ((w.getenv "REPLICATE_API_TOKEN").getD "") = "" then
    ⟨[], Except.error (GExit.sysExit (requireEnvMsg "REPLICATE_API_TOKEN"))⟩
  else
    match convertRefs w imagePaths with
    | Except.error e => ⟨[], Except.error (GExit.sysExit e)⟩
    | Except.ok uris =>
      let pp := imagePrimaryPayload prompt uris
      match w.runPred model pp with
      | Except.ok pu => ⟨[(model, pp)], Except.ok (pu.1, pu.2, model)⟩
      | Except.error e1 =>
        if model ≠ IMG_DEFAULT_MODEL then
          ⟨[(model, pp)], Except.error (GExit.exc e1)⟩
        else
          let fp := imageFallbackPayload prompt
          match w.runPred FALLBACK_MODEL fp with
          | Except.ok pu =>
            ⟨[(model, pp), (FALLBACK_MODEL, fp)], Except.ok (pu.1, pu.2, FALLBACK_MODEL)⟩
          | Except.error e2 =>
            ⟨[(model, pp), (FALLBACK_MODEL, fp)], Except.error (GExit.exc e2)⟩

/-- generate of generate-video.py: token check, single reference conversion,
one prediction run, no fallback. -/
def video_generate (w : GWorld) (imagePath : String) (prompt : String)
    (model : String) : GRun :=
  if pyStrip ((w.getenv "REPLICATE_API_TOKEN").getD "") = "" then
    ⟨[], Except.error (GExit.sysExit (requireEnvMsg "REPLICATE_API_TOKEN"))⟩
  else
    match to_data_uri w imagePath with
    | Except.error e => ⟨[], Except.error (GExit.sysExit e)⟩
    | Except.ok uri =>
      let pl := videoPayload prompt uri
      match w.runPred model pl with
      | Except.ok pu => ⟨[(model, pl)], Except.ok (pu.1, pu.2, model)⟩
      | Except.error e => ⟨[(model, pl)], Except.error (GExit.exc e)⟩

/-- Whether an Except value is a success. -/
def isOkE {ε α : Type} : Except ε α → Bool
  | Except.ok _ => true
  | Except.error _ => false

/-- What a generator's main prints on stdout: the bare path, or with --json
the object holding path, output_url and model. -/
inductive Printed where
  | plain (path : String)
  | asJson (path url model : String)
  deriving DecidableEq

/-- main of generate-image.py after argument parsing: runs generate and
prints either the bare path or the JSON object including the model that
actually produced the output. -/
def image_main (w : GWorld) (prompt : String) (imagePaths : List String)
    (model : String) (asJson : Bool) : Except GExit Printed :=
  match (image_generate w prompt imagePaths model).result with
  | Except.error e => Except.error e
  | Except.ok puM =>
    Except.ok (if asJson then Printed.asJson puM.1 puM.2.1 puM.2.2 else Printed.plain puM.1)

/-- C1: when the requested image model is the default and the primary
prediction run raises, generate retries exactly once with
black-forest-labs/flux-1.1-pro using the adjusted payload (no image_input
key, aspect_ratio 3:2, output_format png); the call succeeds iff that
fallback run succeeds and the returned model — the one main prints in its
JSON output — is the model that actually produced the output; when the
requested model is not the default, no fallback is attempted and the
primary error propagates. -/
theorem image_generate_fallback (w : GWorld) (prompt : String) (paths uris : List String)
    (model : String) (e1 : String)
    (htok : tokenOk w) (hconv : convertRefs w paths = Except.ok uris)
    (hfail : w.runPred model (imagePrimaryPayload prompt uris) = Except.error e1) :
    (model = IMG_DEFAULT_MODEL →
      (image_generate w prompt paths model).calls =
        [(model, imagePrimaryPayload prompt uris),
         (FALLBACK_MODEL, imageFallbackPayload prompt)] ∧
      FALLBACK_MODEL = "black-forest-labs/flux-1.1-pro" ∧
      lookupKey "image_input" (imageFallbackPayload prompt) = none ∧
      lookupKey "aspect_ratio" (imageFallbackPayload prompt) = some (JVal.str "3:2") ∧
      lookupKey "output_format" (imageFallbackPayload prompt) = some (JVal.str "png") ∧
      isOkE (image_generate w prompt paths model).result =
        isOkE (w.runPred FALLBACK_MODEL (imageFallbackPayload prompt)) ∧
      (∀ p u, w.runPred FALLBACK_MODEL (imageFallbackPayload prompt) = Except.ok (p, u) →
        (image_generate w prompt paths model).result = Except.ok (p, u, FALLBACK_MODEL)) ∧
      (∀ e2, w.runPred FALLBACK_MODEL (imageFallbackPayload prompt) = Except.error e2 →
        (image_generate w prompt paths model).result = Except.error (GExit.exc e2)) ∧
      (∀ p u, w.runPred FALLBACK_MODEL (imageFallbackPayload prompt) = Except.ok (p, u) →
        image_main w prompt paths model true =
          Except.ok (Printed.asJson p u FALLBACK_MODEL))) ∧
    (model ≠ IMG_DEFAULT_MODEL →
      (image_generate w prompt paths model).calls = [(model, imagePrimaryPayload prompt uris)] ∧
      (image_generate w prompt paths model).result = Except.error (GExit.exc e1)) := by
  have htok' : ¬ (pyStrip ((w.getenv "REPLICATE_API_TOKEN").getD "") = "") := htok
  constructor
  · intro hm
    subst hm
    rcases hfb : w.runPred FALLBACK_MODEL (imageFallbackPayload prompt) with e2 | pu
    · refine ⟨?_, rfl, by simp [lookupKey, imageFallbackPayload],
        by simp [lookupKey, imageFallbackPayload], by simp [lookupKey, imageFallbackPayload],
        ?_, ?_, ?_, ?_⟩
      · simp [image_generate, if_neg htok', hconv, hfail, hfb]
      · simp [image_generate, if_neg htok', hconv, hfail, hfb, isOkE]
      · intro p u h
        exact Except.noConfusion h
      · intro e2h h
        have he : e2 = e2h := Except.error.inj h
        subst he
        simp [image_generate, if_neg htok', hconv, hfail, hfb]
      · intro p u h
        exact Except.noConfusion h
    · obtain ⟨p, u⟩ := pu
      refine ⟨?_, rfl, by simp [lookupKey, imageFallbackPayload],
        by simp [lookupKey, imageFallbackPayload], by simp [lookupKey, imageFallbackPayload],
        ?_, ?_, ?_, ?_⟩
      · simp [image_generate, if_neg htok', hconv, hfail, hfb]
      · simp [image_generate, if_neg htok', hconv, hfail, hfb, isOkE]
      · intro p2 u2 h
        have hpq : (p, u) = (p2, u2) := Except.ok.inj h
        cases hpq
        simp [image_generate, if_neg htok', hconv, hfail, hfb]
      · intro e2 h
        exact Except.noConfusion h
      · intro p2 u2 h
        have hpq : (p, u) = (p2, u2) := Except.ok.inj h
        cases hpq
        simp [image_main, image_generate, if_neg htok', hconv, hfail, hfb]
  · intro hm
    constructor
    · simp [image_generate, if_neg htok', hconv, hfail, if_pos hm]
    · simp [image_generate, if_neg htok', hconv, hfail, if_pos hm]

/-- Concrete oracle for the generator witnesses: the default model always
raises, the fallback model succeeds, one reference path is missing. -/
def gWorldCX : GWorld :=
  { getenv := fun _ => some "tok"
    pathExists := fun p => decide (p ≠ "/tmp/missing.png")
    dataUriOf := fun _ => "data:image/png;base64,AA=="
    runPred := fun m _ =>
      if m = FALLBACK_MODEL then Except.ok ("/tmp/out.png", "https://x/y.png")
      else Except.error "boom" }

/-- Witness for C1: with the default model failing and the fallback
succeeding, generate returns the fallback's output under the fallback model. -/
theorem image_generate_fallback_witness :
    (image_generate gWorldCX "p" [] IMG_DEFAULT_MODEL).result =
      Except.ok ("/tmp/out.png", "https://x/y.png", FALLBACK_MODEL) := by
  have h := image_generate_fallback gWorldCX "p" [] [] IMG_DEFAULT_MODEL "boom"
    (by decide) rfl (by simp [gWorldCX, IMG_DEFAULT_MODEL, FALLBACK_MODEL])
  exact (h.1 rfl).2.2.2.2.2.2.1 "/tmp/out.png" "https://x/y.png"
    (by simp [gWorldCX])

/-- C5 counterexample: the generators do not append any suffix to the
caller's prompt: at the concrete prompt shown, the prompt field of the
primary image payload, the fallback image payload and the video payload is
the caller's prompt verbatim, contradicting the claim that the sent prompt
is the caller's prompt plus a constant style suffix rather than verbatim. -/
theorem prompt_sent_verbatim_cex :
    lookupKey "prompt" (imagePrimaryPayload "A quiet pond" []) =
      some (JVal.str "A quiet pond") ∧
    lookupKey "prompt" (imageFallbackPayload "A quiet pond") =
      some (JVal.str "A quiet pond") ∧
    lookupKey "prompt" (videoPayload "A quiet pond" "data:image/png;base64,AA==") =
      some (JVal.str "A quiet pond") := by
  refine ⟨rfl, rfl, rfl⟩

/-- C5 (amended): both generators send the caller's prompt verbatim as the
prompt field of the provider payload; no suffix is appended (appending any
suffix that leaves the prompt unchanged forces that suffix to be empty).
The fixed style text appears only in the orchestrator's default prompts,
used when the caller supplies no prompt. -/
theorem prompt_sent_verbatim (prompt : String) (uris : List String) (uri : String) :
    lookupKey "prompt" (imagePrimaryPayload prompt uris) = some (JVal.str prompt) ∧
    lookupKey "prompt" (imageFallbackPayload prompt) = some (JVal.str prompt) ∧
    lookupKey "prompt" (videoPayload prompt uri) = some (JVal.str prompt) ∧
    (∀ suffix : String, prompt ++ suffix = prompt → suffix = "") := by
  refine ⟨rfl, rfl, rfl, ?_⟩
  intro suffix h
  have hlen : prompt.length + suffix.length = prompt.length := by
    have := congrArg String.length h
    simpa [String.length_append] using this
  have h0 : suffix.length = 0 := by omega
  cases suffix with
  | mk data =>
    simp only [String.length] at h0
    rw [List.length_eq_zero] at h0
    simp [h0]

/-- Witness for C5 amended theorem at a concrete prompt. -/
theorem prompt_sent_verbatim_witness :
    lookupKey "prompt" (imagePrimaryPayload "Snow Day" []) = some (JVal.str "Snow Day") :=
  (prompt_sent_verbatim "Snow Day" [] "u").1

theorem missing_ref_first (w : GWorld) :
    ∀ (paths : List String), (∃ p, p ∈ paths ∧ w.pathExists p = false) →
      ∃ q, q ∈ paths ∧ w.pathExists q = false ∧
        convertRefs w paths = Except.error ("Reference image not found: " ++ q) := by
  intro paths
  induction paths with
  | nil => rintro ⟨p, hp, _⟩; cases hp
  | cons a as ih =>
    rintro ⟨p, hp, hmiss⟩
    by_cases ha : w.pathExists a
    · have hpas : p ∈ as := by
        rcases List.mem_cons.mp hp with h | h
        · subst h; rw [ha] at hmiss; cases hmiss
        · exact h
      obtain ⟨q, hq, hqm, hconv⟩ := ih ⟨p, hpas, hmiss⟩
      exact ⟨q, List.mem_cons_of_mem a hq, hqm,
        by simp [convertRefs, to_data_uri, ha, hconv]⟩
    · refine ⟨a, List.mem_cons_self a as, by simpa using ha, ?_⟩
      simp only [convertRefs, to_data_uri, if_neg ha]

/-- C7: if any reference image path given to the image generator does not
exist, generate terminates with SystemExit (nonzero exit) carrying a message
naming the (first) missing path, and no prediction request is ever sent:
all reference paths are converted, and hence validated, before the first
API call. -/
theorem image_generate_missing_ref (w : GWorld) (prompt : String) (paths : List String)
    (model : String) (p : String) (htok : tokenOk w) (hp : p ∈ paths)
    (hmiss : w.pathExists p = false) :
    ∃ q, q ∈ paths ∧ w.pathExists q = false ∧
      (image_generate w prompt paths model).result =
        Except.error (GExit.sysExit ("Reference image not found: " ++ q)) ∧
      (image_generate w prompt paths model).calls = [] := by
  obtain ⟨q, hq, hqm, hconv⟩ := missing_ref_first w paths ⟨p, hp, hmiss⟩
  have htok' : ¬ (pyStrip ((w.getenv "REPLICATE_API_TOKEN").getD "") = "") := htok
  exact ⟨q, hq, hqm, by simp [image_generate, if_neg htok', hconv],
    by simp [image_generate, if_neg htok', hconv]⟩

/-- Witness for C7: a single missing reference path aborts the run with the
message naming it and zero provider calls. -/
theorem image_generate_missing_ref_witness :
    (image_generate gWorldCX "p" ["/tmp/missing.png"] IMG_DEFAULT_MODEL).calls = [] ∧
    (image_generate gWorldCX "p" ["/tmp/missing.png"] IMG_DEFAULT_MODEL).result =
      Except.error (GExit.sysExit ("Reference image not found: " ++ "/tmp/missing.png")) := by
  obtain ⟨q, hq, hqm, hres, hcalls⟩ :=
    image_generate_missing_ref gWorldCX "p" ["/tmp/missing.png"] IMG_DEFAULT_MODEL
      "/tmp/missing.png" (by decide) (List.mem_singleton.mpr rfl) (by decide)
  have : q = "/tmp/missing.png" := List.mem_singleton.mp hq
  subst this
  exact ⟨hcalls, hres⟩

/-! ## The orchestrator (run-generate-story.py)

main is modelled as a function of parsed CLI arguments and an oracle
supplying every external outcome: environment variables, PATH lookups,
the content-file read, the three subprocesses (date resolver, image
generator, video generator), filesystem existence checks, the random
name components drawn for temporary files, ffmpeg, and the three curl
calls (two media uploads and one story create/update).  The run returns
the ordered list of externally visible events plus either a process
termination (SystemExit with a code or a message, an uncaught exception)
or the final result summary.  URL strings are abstracted into the event
constructors (curlMediaUpload is POST base_url/api/media, curlStoryPut
id is PUT base_url/api/stories/id, curlStoryPost is POST
base_url/api/stories); messages that interpolate runtime data are
modelled by their constant head. -/

/-- DEFAULT_BASE_URL of run-generate-story.py. -/
def DEFAULT_BASE_URL : String := "https://bedtimestories.bruce-hart.workers.dev"

/-- Parsed argparse namespace of run-generate-story.py. -/
structure Args where
  title : String
  contentFile : String
  date : Option String := none
  storyId : Option Int := none
  baseUrl : Option String := none
  pollSeconds : Int := 10
  refImage : List String := []
  imagePrompt : Option String := none
  videoPrompt : Option String := none
  keepTmp : Bool := false
  json : Bool := false

/-- A parsed JSON response object, restricted to the fields main reads. -/
structure JsonObj where
  path : Option String := none
  key : Option String := none
  id : Option Int := none
  deriving DecidableEq

/-- Outcome of a subprocess whose stdout is used as text. -/
structure ProcText where
  rc : Int
  out : String
  deriving DecidableEq

/-- Outcome of a generator subprocess run through run_json: its exit code and,
when the exit code is zero, the parse of its stdout (none = not JSON). -/
structure ProcJson where
  rc : Int
  out : Option JsonObj
  deriving DecidableEq

/-- Outcome of one curl invocation through curl_json: curl's own exit code,
the written HTTP status, and the parse of the response body. -/
structure CurlOut where
  rc : Int
  status : String
  body : Option JsonObj
  deriving DecidableEq

/-- Oracle for one orchestrator run. -/
structure OWorld where
  getenv : String → Option String
  which : String → Bool
  readText : Option String
  resolver : ProcText
  imageGen : ProcJson
  videoGen : ProcJson
  pathExists : String → Bool
  encRand : String
  payloadRand : String
  imgScratchRand : String
  vidScratchRand : String
  storyScratchRand : String
  ffmpegOk : Bool
  imgUpload : CurlOut
  vidUpload : CurlOut
  storyResp : CurlOut
  sha256hex : String → String

/-- A JSON value inside the story payload written by main (json.dump turns
Python None into null). -/
inductive PVal where
  | str (s : String)
  | null
  deriving DecidableEq

/-- Externally visible events of an orchestrator run, in order. -/
inductive Event where
  | resolverRun
  | imageGenRun (refs : List String) (prompt : String)
  | videoGenRun (image : String) (prompt : String) (pollSeconds : Int)
  | ffmpegRun (input : String) (output : String)
  | curlMediaUpload (file : String)
  | curlStoryPut (id : Int) (payload : List (String × PVal))
  | curlStoryPost (payload : List (String × PVal))
  | removeFile (path : String)
  | writeFile (path : String)
  deriving DecidableEq

/-- Process termination: SystemExit carrying an int propagates that code;
SystemExit carrying a message (and an uncaught exception) exits nonzero (1). -/
inductive ExitInfo where
  | code (c : Int)
  | msg (m : String)
  deriving DecidableEq

/-- The process exit code of a termination. -/
def ExitInfo.exitCode : ExitInfo → Int
  | ExitInfo.code c => c
  | ExitInfo.msg _ => 1

/-- The result summary printed at the end of a successful run. -/
structure Summary where
  title : String
  content : String
  date : Option String
  imageKey : String
  videoKey : String
  storyId : Int
  deriving DecidableEq

/-- An orchestrator run: its event trace and its outcome. -/
structure Run where
  trace : List Event
  result : Except ExitInfo Summary

/-- Prepend already-performed events to the rest of a run. -/
def Run.pre (es : List Event) (r : Run) : Run := ⟨es ++ r.trace, r.result⟩

/-- A run terminating after the given events. -/
def Run.fail (es : List Event) (e : ExitInfo) : Run := ⟨es, Except.error e⟩

/-- tempfile.mktemp with the story-curl prefix in /tmp. -/
def scratchPath (rand : String) : String := "/tmp/story-curl-" ++ rand ++ ".json"

/-- tempfile.mktemp with the story-payload prefix in /tmp. -/
def payloadPathOf (rand : String) : String := "/tmp/story-payload-" ++ rand ++ ".json"

/-- The ffmpeg target path with its uuid4 hex component. -/
def encodedPathOf (rand : String) : String := "/tmp/story-video-encoded-" ++ rand ++ ".mp4"

/-- curl_json: runs curl writing the body to a scratch file; a nonzero curl
exit propagates (before the scratch file is touched); otherwise the scratch
file is read and removed, then a status outside 200/201 exits with code 10,
and an unparseable body raises SystemExit with a message. -/
def curlJson (call : Event) (scratch : String) (c : CurlOut) :
    List Event × Except ExitInfo JsonObj :=
  if c.rc ≠ 0 then ([call], Except.error (ExitInfo.code c.rc))
  else if ¬ (c.status = "200" ∨ c.status = "201") then
    ([call, Event.removeFile scratch], Except.error (ExitInfo.code 10))
  else
    match c.body with
    | none => ([call, Event.removeFile scratch], Except.error (ExitInfo.msg "Non-JSON response"))
    | some j => ([call, Event.removeFile scratch], Except.ok j)

/-- story_fingerprint: first 12 hex digits of the sha256 of the stripped
title, a separator line, and the stripped content (hashing via the oracle). -/
def story_fingerprint (sha256hex : String → String) (title content : String) : String :=
  (sha256hex (pyStrip title ++ "\n---\n" ++ pyStrip content)).take 12

/-- The single-spaced join of the whitespace-split stripped content. -/
def pySplitWsJoin (s : String) : String :=
  String.intercalate " " (((pyStrip s).split (fun c => isPySpaceChar c)).filter (fun t => t ≠ ""))

/-- compact_story_excerpt with its default max_chars of 700. -/
def compact_story_excerpt (content : String) : String :=
  let text := pySplitWsJoin content
  if text.length ≤ 700 then text
  else pyRstrip (text.take 699) ++ "…"

/-- default_image_prompt of run-generate-story.py. -/
def default_image_prompt (sha : String → String) (title content : String) : String :=
  "Cozy bedtime-story cartoon cover illustration (landscape). " ++
  "Depict ONE key moment from this story, with a warm, gentle mood. " ++
  "Use only the characters that belong in that moment (no extra people/animals). " ++
  "No text, letters, signage, logos, or watermarks. " ++
  "Story title: " ++ title ++ ". " ++
  "Story excerpt: " ++ compact_story_excerpt content ++ " " ++
  "(story id tag: " ++ story_fingerprint sha title content ++ ")."

/-- default_video_prompt of run-generate-story.py. -/
def default_video_prompt (sha : String → String) (title content : String) : String :=
  "Cartoon 8-second scene (landscape) showing ONE gentle moment from this story. " ++
  "Slow, steady camera movement, warm lighting, family-friendly. " ++
  "Match the cover image style and characters; do not add characters not present in the moment. " ++
  "No text, letters, signage, logos, or watermarks. " ++
  "Story title: " ++ title ++ ". " ++
  "Story excerpt: " ++ compact_story_excerpt content ++ " " ++
  "(story id tag: " ++ story_fingerprint sha title content ++ ")."

/-- json.dump of an optional string value. -/
def optPVal : Option String → PVal
  | some s => PVal.str s
  | none => PVal.null

/-- The media-only update payload built when args.story_id is truthy. -/
def mediaPayload (imageKey videoKey : String) : List (String × PVal) :=
  [("image_url", PVal.str imageKey), ("video_url", PVal.str videoKey)]

/-- The full create payload built when args.story_id is falsy. -/
def createPayload (title content : String) (date : Option String)
    (imageKey videoKey : String) : List (String × PVal) :=
  [("title", PVal.str title), ("content", PVal.str content), ("date", optPVal date),
   ("image_url", PVal.str imageKey), ("video_url", PVal.str videoKey)]

/-- Final cleanup and summary: without --keep-tmp the payload file and the
encoded video are removed (in that order, errors ignored); the summary is
then emitted. -/
def cleanupStage (keepTmp : Bool) (title content : String) (date : Option String)
    (imageKey videoKey : String) (storyId : Int) (ppath encPath : String) : Run :=
  ⟨if keepTmp then [] else [Event.removeFile ppath, Event.removeFile encPath],
   Except.ok ⟨title, content, date, imageKey, videoKey, storyId⟩⟩

/-- Payload construction, payload file write, and the story PUT (media-only
payload, when story_id is truthy) or POST (full payload otherwise); the
created story must return a truthy id, while the update falls back to
args.story_id when the response id is falsy. -/
def storyStage (storyId : Option Int) (title content : String) (date : Option String)
    (keepTmp : Bool) (w : OWorld) (imageKey videoKey : String) (encPath : String) : Run :=
  let ppath := payloadPathOf w.payloadRand
  if truthyI storyId then
    match curlJson (Event.curlStoryPut (storyId.getD 0) (mediaPayload imageKey videoKey))
        (scratchPath w.storyScratchRand) w.storyResp with
    | (es, Except.error e) => Run.fail (Event.writeFile ppath :: es) e
    | (es, Except.ok j) =>
      let sid := match j.id with
        | some i => if i = 0 then storyId.getD 0 else i
        | none => storyId.getD 0
      Run.pre (Event.writeFile ppath :: es)
        (cleanupStage keepTmp title content date imageKey videoKey sid ppath encPath)
  else
    match curlJson (Event.curlStoryPost (createPayload title content date imageKey videoKey))
        (scratchPath w.storyScratchRand) w.storyResp with
    | (es, Except.error e) => Run.fail (Event.writeFile ppath :: es) e
    | (es, Except.ok j) =>
      match j.id with
      | none => Run.fail (Event.writeFile ppath :: es)
          (ExitInfo.msg "Story create did not return id")
      | some i =>
        if i = 0 then Run.fail (Event.writeFile ppath :: es)
          (ExitInfo.msg "Story create did not return id")
        else Run.pre (Event.writeFile ppath :: es)
          (cleanupStage keepTmp title content date imageKey videoKey i ppath encPath)

/-- The two authenticated media uploads; both response keys must be truthy
(present and nonempty) or the run aborts before any story request. -/
def uploadStage (storyId : Option Int) (title content : String) (date : Option String)
    (keepTmp : Bool) (w : OWorld) (imagePath encPath : String) : Run :=
  match curlJson (Event.curlMediaUpload imagePath) (scratchPath w.imgScratchRand) w.imgUpload with
  | (es1, Except.error e) => Run.fail es1 e
  | (es1, Except.ok iu) =>
    match curlJson (Event.curlMediaUpload encPath) (scratchPath w.vidScratchRand) w.vidUpload with
    | (es2, Except.error e) => Run.fail (es1 ++ es2) e
    | (es2, Except.ok vu) =>
      if truthyS iu.key && truthyS vu.key then
        Run.pre (es1 ++ es2)
          (storyStage storyId title content date keepTmp w (iu.key.getD "") (vu.key.getD "")
            encPath)
      else Run.fail (es1 ++ es2) (ExitInfo.msg "Upload did not return media keys.")

/-- Image generation (exit code and returned path validated), video generation
(likewise, with the poll interval exported to its environment), and the ffmpeg
transcode (check=True, a failure is an uncaught exception). -/
def mediaStage (storyId : Option Int) (title content : String) (date : Option String)
    (keepTmp : Bool) (poll : Int) (refs : List String)
    (imagePrompt videoPrompt : String) (w : OWorld) : Run :=
  let ev1 := Event.imageGenRun refs imagePrompt
  if w.imageGen.rc ≠ 0 then Run.fail [ev1] (ExitInfo.code w.imageGen.rc)
  else
    match w.imageGen.out with
    | none => Run.fail [ev1] (ExitInfo.msg "Expected JSON on stdout, got parse error")
    | some ires =>
      match ires.path with
      | none => Run.fail [ev1] (ExitInfo.msg "Image script did not return a valid path")
      | some ip =>
        if ip = "" then Run.fail [ev1] (ExitInfo.msg "Image script did not return a valid path")
        else if ¬ w.pathExists ip then
          Run.fail [ev1] (ExitInfo.msg "Image script did not return a valid path")
        else
          let ev2 := Event.videoGenRun ip videoPrompt poll
          if w.videoGen.rc ≠ 0 then Run.fail [ev1, ev2] (ExitInfo.code w.videoGen.rc)
          else
            match w.videoGen.out with
            | none => Run.fail [ev1, ev2] (ExitInfo.msg "Expected JSON on stdout, got parse error")
            | some vres =>
              match vres.path with
              | none => Run.fail [ev1, ev2]
                  (ExitInfo.msg "Video script did not return a valid path")
              | some vp =>
                if vp = "" then Run.fail [ev1, ev2]
                  (ExitInfo.msg "Video script did not return a valid path")
                else if ¬ w.pathExists vp then
                  Run.fail [ev1, ev2] (ExitInfo.msg "Video script did not return a valid path")
                else
                  let encPath := encodedPathOf w.encRand
                  let ev3 := Event.ffmpegRun vp encPath
                  if w.ffmpegOk then
                    Run.pre [ev1, ev2, ev3]
                      (uploadStage storyId title content date keepTmp w ip encPath)
                  else Run.fail [ev1, ev2, ev3] (ExitInfo.msg "ffmpeg transcode failed")

/-- Target-date resolution: when both the date argument and the story id are
falsy, the next-open-date resolver subprocess runs once; a nonzero resolver
exit becomes the orchestrator's exit, otherwise its stripped stdout is the
date. -/
def dateStage (storyId : Option Int) (argDate : Option String) (title content : String)
    (keepTmp : Bool) (poll : Int) (refs : List String)
    (imagePrompt videoPrompt : String) (w : OWorld) : Run :=
  if !truthyS argDate && !truthyI storyId then
    if w.resolver.rc ≠ 0 then Run.fail [Event.resolverRun] (ExitInfo.code w.resolver.rc)
    else Run.pre [Event.resolverRun]
      (mediaStage storyId title content (some (pyStrip w.resolver.out)) keepTmp poll refs
        imagePrompt videoPrompt w)
  else mediaStage storyId title content argDate keepTmp poll refs imagePrompt videoPrompt w

/-- main of run-generate-story.py: credential and tool checks, content read,
prompt defaulting, then the pipeline.  The orchestrator's require_env tests
raw truthiness (no strip). -/
def mainRun (args : Args) (w : OWorld) : Run :=
  if ¬ truthyS (w.getenv "GEMINI_API_KEY") then
    Run.fail [] (ExitInfo.msg (requireEnvMsg "GEMINI_API_KEY"))
  else if ¬ truthyS (w.getenv "STORY_API_TOKEN") then
    Run.fail [] (ExitInfo.msg (requireEnvMsg "STORY_API_TOKEN"))
  else if ¬ w.which "curl" then
    Run.fail [] (ExitInfo.msg "Required tool not found on PATH: curl")
  else if ¬ w.which "ffmpeg" then
    Run.fail [] (ExitInfo.msg "Required tool not found on PATH: ffmpeg")
  else
    match w.readText with
    | none => Run.fail [] (ExitInfo.msg "content file could not be read")
    | some content =>
      dateStage args.storyId args.date args.title content args.keepTmp args.pollSeconds
        args.refImage
        (orS args.imagePrompt (default_image_prompt w.sha256hex args.title content))
        (orS args.videoPrompt (default_video_prompt w.sha256hex args.title content))
        w

/-- The paths passed to os.remove during a trace, in order. -/
def removalsOf : List Event → List String
  | [] => []
  | Event.removeFile p :: rest => p :: removalsOf rest
  | _ :: rest => removalsOf rest

/-! ## Trace inventory lemmas -/

/-- An event that is not the resolver launch and whose story PUT payload, if
it is one, carries exactly the media keys. -/
def tameEvent (e : Event) : Prop :=
  e ≠ Event.resolverRun ∧
  ∀ i pl, e = Event.curlStoryPut i pl →
    List.map Prod.fst pl = ["image_url", "video_url"]

theorem tame_put (sid : Int) (ik vk : String) :
    tameEvent (Event.curlStoryPut sid (mediaPayload ik vk)) := by
  constructor
  · simp
  · intro i pl heq
    injection heq with h1 h2
    subst h2
    simp [mediaPayload]

theorem curlJson_fst (call : Event) (scratch : String) (c : CurlOut) :
    (curlJson call scratch c).1 = [call] ∨
    (curlJson call scratch c).1 = [call, Event.removeFile scratch] := by
  unfold curlJson
  by_cases h1 : c.rc ≠ 0
  · rw [if_pos h1]; exact Or.inl rfl
  · rw [if_neg h1]
    by_cases h2 : ¬ (c.status = "200" ∨ c.status = "201")
    · rw [if_pos h2]; exact Or.inr rfl
    · rw [if_neg h2]
      cases c.body <;> exact Or.inr rfl

theorem tame_of_curl (call : Event) (scratch : String) (c : CurlOut)
    (hcall : tameEvent call) :
    ∀ e ∈ (curlJson call scratch c).1, tameEvent e := by
  intro e he
  rcases curlJson_fst call scratch c with h | h <;> rw [h] at he <;> simp at he
  · subst he; exact hcall
  · rcases he with he | he <;> subst he
    · exact hcall
    · exact ⟨by simp, fun i pl heq => Event.noConfusion heq⟩

theorem cleanup_tame (keepTmp : Bool) (title content : String) (date : Option String)
    (ik vk : String) (sid : Int) (pp ep : String) :
    ∀ e ∈ (cleanupStage keepTmp title content date ik vk sid pp ep).trace, tameEvent e := by
  intro e he
  cases keepTmp <;> simp [cleanupStage] at he
  rcases he with he | he <;> subst he <;>
    exact ⟨by simp, fun i pl heq => Event.noConfusion heq⟩

theorem storyStage_tame (storyId : Option Int) (title content : String) (date : Option String)
    (keepTmp : Bool) (w : OWorld) (ik vk ep : String) :
    ∀ e ∈ (storyStage storyId title content date keepTmp w ik vk ep).trace, tameEvent e := by
  intro e he
  unfold storyStage at he
  by_cases hsid : truthyI storyId = true
  · rw [if_pos hsid] at he
    rcases hc : curlJson (Event.curlStoryPut (storyId.getD 0) (mediaPayload ik vk))
        (scratchPath w.storyScratchRand) w.storyResp with ⟨es, r⟩
    have hes : ∀ e2 ∈ es, tameEvent e2 := by
      have := tame_of_curl (Event.curlStoryPut (storyId.getD 0) (mediaPayload ik vk))
        (scratchPath w.storyScratchRand) w.storyResp (tame_put (storyId.getD 0) ik vk)
      rw [hc] at this
      exact this
    rw [hc] at he
    cases r with
    | error err =>
      simp [Run.fail] at he
      rcases he with he | he
      · subst he; exact ⟨by simp, fun i pl heq => Event.noConfusion heq⟩
      · exact hes e he
    | ok j =>
      simp [Run.pre] at he
      rcases he with he | he | he
      · subst he; exact ⟨by simp, fun i pl heq => Event.noConfusion heq⟩
      · exact hes e he
      · exact cleanup_tame keepTmp title content date ik vk _ _ ep e he
  · rw [if_neg hsid] at he
    rcases hc : curlJson (Event.curlStoryPost (createPayload title content date ik vk))
        (scratchPath w.storyScratchRand) w.storyResp with ⟨es, r⟩
    have hes : ∀ e2 ∈ es, tameEvent e2 := by
      have := tame_of_curl (Event.curlStoryPost (createPayload title content date ik vk))
        (scratchPath w.storyScratchRand) w.storyResp
        ⟨by simp, fun i pl heq => Event.noConfusion heq⟩
      rw [hc] at this
      exact this
    rw [hc] at he
    cases r with
    | error err =>
      simp [Run.fail] at he
      rcases he with he | he
      · subst he; exact ⟨by simp, fun i pl heq => Event.noConfusion heq⟩
      · exact hes e he
    | ok j =>
      cases hj : j.id with
      | none =>
        simp [hj, Run.fail] at he
        rcases he with he | he
        · subst he; exact ⟨by simp, fun i pl heq => Event.noConfusion heq⟩
        · exact hes e he
      | some i =>
        by_cases hi : i = 0
        · simp [hj, hi, Run.fail] at he
          rcases he with he | he
          · subst he; exact ⟨by simp, fun i2 pl heq => Event.noConfusion heq⟩
          · exact hes e he
        · simp [hj, hi, Run.pre] at he
          rcases he with he | he | he
          · subst he; exact ⟨by simp, fun i2 pl heq => Event.noConfusion heq⟩
          · exact hes e he
          · exact cleanup_tame keepTmp title content date ik vk _ _ ep e he

theorem uploadStage_tame (storyId : Option Int) (title content : String) (date : Option String)
    (keepTmp : Bool) (w : OWorld) (ip ep : String) :
    ∀ e ∈ (uploadStage storyId title content date keepTmp w ip ep).trace, tameEvent e := by
  intro e he
  unfold uploadStage at he
  rcases h1 : curlJson (Event.curlMediaUpload ip) (scratchPath w.imgScratchRand) w.imgUpload
    with ⟨es1, r1⟩
  have hes1 : ∀ e2 ∈ es1, tameEvent e2 := by
    have := tame_of_curl (Event.curlMediaUpload ip) (scratchPath w.imgScratchRand) w.imgUpload
      ⟨by simp, fun i pl heq => Event.noConfusion heq⟩
    rw [h1] at this; exact this
  rw [h1] at he
  cases r1 with
  | error err =>
    simp [Run.fail] at he
    exact hes1 e he
  | ok iu =>
    rcases h2 : curlJson (Event.curlMediaUpload ep) (scratchPath w.vidScratchRand) w.vidUpload
      with ⟨es2, r2⟩
    have hes2 : ∀ e2 ∈ es2, tameEvent e2 := by
      have := tame_of_curl (Event.curlMediaUpload ep) (scratchPath w.vidScratchRand) w.vidUpload
        ⟨by simp, fun i pl heq => Event.noConfusion heq⟩
      rw [h2] at this; exact this
    rw [h2] at he
    cases r2 with
    | error err =>
      simp [Run.fail] at he
      rcases he with he | he
      · exact hes1 e he
      · exact hes2 e he
    | ok vu =>
      by_cases hk : (truthyS iu.key && truthyS vu.key) = true
      · simp [hk, Run.pre] at he
        rcases he with he | he | he
        · exact hes1 e he
        · exact hes2 e he
        · exact storyStage_tame storyId title content date keepTmp w _ _ ep e he
      · simp [hk, Run.fail] at he
        rcases he with he | he
        · exact hes1 e he
        · exact hes2 e he

theorem mediaStage_tame (storyId : Option Int) (title content : String) (date : Option String)
    (keepTmp : Bool) (poll : Int) (refs : List String) (ipr vpr : String) (w : OWorld) :
    ∀ e ∈ (mediaStage storyId title content date keepTmp poll refs ipr vpr w).trace,
      tameEvent e := by
  intro e he
  unfold mediaStage at he
  repeat' split at he
  all_goals simp [Run.fail, Run.pre] at he
  all_goals rcases he with he | he | he | he
  all_goals (first
    | exact uploadStage_tame _ _ _ _ _ _ _ _ e he
    | (subst he; exact ⟨by simp, fun i pl heq => Event.noConfusion heq⟩)
    | exact ⟨by simp, fun i pl heq => Event.noConfusion heq⟩)

theorem dateStage_tame_put (storyId : Option Int) (argDate : Option String)
    (title content : String) (keepTmp : Bool) (poll : Int) (refs : List String)
    (ipr vpr : String) (w : OWorld) :
    ∀ i pl, Event.curlStoryPut i pl ∈
        (dateStage storyId argDate title content keepTmp poll refs ipr vpr w).trace →
      List.map Prod.fst pl = ["image_url", "video_url"] := by
  intro i pl he
  unfold dateStage at he
  split at he
  · split at he
    · simp [Run.fail] at he
    · simp [Run.pre] at he
      exact (mediaStage_tame storyId title content _ keepTmp poll refs ipr vpr w _ he).2 i pl rfl
  · exact (mediaStage_tame storyId title content _ keepTmp poll refs ipr vpr w _ he).2 i pl rfl

/-- C2: in every orchestrator run, any JSON payload sent to the story PUT
endpoint carries exactly the keys image_url and video_url, in that order;
in particular title, content and date are absent from the update payload. -/
theorem update_payload_media_only (args : Args) (w : OWorld) (i : Int)
    (pl : List (String × PVal))
    (h : Event.curlStoryPut i pl ∈ (mainRun args w).trace) :
    List.map Prod.fst pl = ["image_url", "video_url"] ∧
    "title" ∉ List.map Prod.fst pl ∧
    "content" ∉ List.map Prod.fst pl ∧
    "date" ∉ List.map Prod.fst pl := by
  have hkeys : List.map Prod.fst pl = ["image_url", "video_url"] := by
    unfold mainRun at h
    repeat' split at h
    · simp [Run.fail] at h
    · simp [Run.fail] at h
    · simp [Run.fail] at h
    · simp [Run.fail] at h
    · simp [Run.fail] at h
    · exact dateStage_tame_put _ _ _ _ _ _ _ _ _ w i pl h
  refine ⟨hkeys, ?_, ?_, ?_⟩ <;> rw [hkeys] <;> decide

/-- Whether the orchestrator's startup checks pass: both credentials are set
(raw truthiness), curl and ffmpeg are found, and the content file is readable. -/
def startupOk (w : OWorld) : Prop :=
  truthyS (w.getenv "GEMINI_API_KEY") = true ∧
  truthyS (w.getenv "STORY_API_TOKEN") = true ∧
  w.which "curl" = true ∧
  w.which "ffmpeg" = true ∧
  w.readText.isSome = true

instance (w : OWorld) : Decidable (startupOk w) := by
  unfold startupOk; infer_instance

theorem mainRun_startup (args : Args) (w : OWorld) (content : String)
    (h : startupOk w) (hc : w.readText = some content) :
    mainRun args w =
      dateStage args.storyId args.date args.title content args.keepTmp args.pollSeconds
        args.refImage
        (orS args.imagePrompt (default_image_prompt w.sha256hex args.title content))
        (orS args.videoPrompt (default_video_prompt w.sha256hex args.title content)) w := by
  obtain ⟨h1, h2, h3, h4, _⟩ := h
  unfold mainRun
  rw [if_neg (by simp [h1]), if_neg (by simp [h2]), if_neg (by simp [h3]),
    if_neg (by simp [h4]), hc]

/-- Concrete oracle for orchestrator witnesses: every external step succeeds. -/
def wHappy : OWorld :=
  { getenv := fun _ => some "token"
    which := fun _ => true
    readText := some "Once upon a time."
    resolver := ⟨0, "2026-01-01\n"⟩
    imageGen := ⟨0, some { path := some "/tmp/img.jpg" }⟩
    videoGen := ⟨0, some { path := some "/tmp/vid.mp4" }⟩
    pathExists := fun _ => true
    encRand := "e1"
    payloadRand := "p1"
    imgScratchRand := "c1"
    vidScratchRand := "c2"
    storyScratchRand := "c3"
    ffmpegOk := true
    imgUpload := ⟨0, "200", some { key := some "imgkey" }⟩
    vidUpload := ⟨0, "200", some { key := some "vidkey" }⟩
    storyResp := ⟨0, "200", some { id := some 7 }⟩
    sha256hex := fun _ => "deadbeefdead" }

/-- Concrete arguments shared by the orchestrator witnesses. -/
def argsBase : Args :=
  { title := "Snow Day"
    contentFile := "story.md"
    imagePrompt := some "cover prompt"
    videoPrompt := some "scene prompt" }

/-- Witness for C2: a concrete update run sends the PUT payload with exactly
the media keys. -/
theorem update_payload_media_only_witness :
    List.map Prod.fst (mediaPayload "imgkey" "vidkey") = ["image_url", "video_url"] :=
  (update_payload_media_only { argsBase with storyId := some 5, date := some "2026-01-02" }
    wHappy 5 (mediaPayload "imgkey" "vidkey") (by decide)).1

/-- C4 counterexample: supplying --date with the empty string is supplying
the flag, yet the empty string is falsy in Python, so the next-open-date
resolver subprocess is still invoked, contradicting the claim that the
resolver is never invoked when --date is supplied. -/
theorem resolver_empty_date_cex :
    Event.resolverRun ∈ (mainRun { argsBase with date := some "" } wHappy).trace := by
  decide

/-- C4 (amended): in every run that passes the startup checks with --date
absent and --story-id absent, the resolver runs exactly once, before any
image or video generation (it is the first external event and never recurs),
and a nonzero resolver exit code becomes the orchestrator's exit code with
nothing else attempted; when --date is supplied with a nonempty value the
resolver never runs in any run (an empty --date value behaves as absent). -/
theorem resolver_once_spec (args : Args) (w : OWorld) :
    (startupOk w → args.date = none → args.storyId = none →
      (∃ rest, (mainRun args w).trace = Event.resolverRun :: rest ∧
        Event.resolverRun ∉ rest) ∧
      (w.resolver.rc ≠ 0 →
        (mainRun args w).trace = [Event.resolverRun] ∧
        (mainRun args w).result = Except.error (ExitInfo.code w.resolver.rc))) ∧
    (∀ d, args.date = some d → d ≠ "" → Event.resolverRun ∉ (mainRun args w).trace) := by
  constructor
  · intro hs hd hsid
    obtain ⟨content, hc⟩ := Option.isSome_iff_exists.mp hs.2.2.2.2
    rw [mainRun_startup args w content hs hc]
    unfold dateStage
    rw [hd, hsid]
    rw [if_pos (by simp [truthyS, truthyI])]
    by_cases hrc : w.resolver.rc ≠ 0
    · rw [if_pos hrc]
      exact ⟨⟨[], rfl, by simp⟩, fun _ => ⟨rfl, rfl⟩⟩
    · rw [if_neg hrc]
      refine ⟨⟨_, rfl, ?_⟩, fun h => absurd h hrc⟩
      intro hmem
      exact (mediaStage_tame _ _ _ _ _ _ _ _ _ w _ hmem).1 rfl
  · intro d hd hne
    unfold mainRun
    repeat' split
    · simp [Run.fail]
    · simp [Run.fail]
    · simp [Run.fail]
    · simp [Run.fail]
    · simp [Run.fail]
    · unfold dateStage
      rw [hd]
      rw [if_neg (by simp [truthyS, hne])]
      intro hmem
      exact (mediaStage_tame _ _ _ _ _ _ _ _ _ w _ hmem).1 rfl

/-- Witness for C4 amended theorem: a concrete run without --date and without
--story-id launches the resolver first and only once. -/
theorem resolver_once_spec_witness :
    ∃ rest, (mainRun argsBase wHappy).trace = Event.resolverRun :: rest ∧
      Event.resolverRun ∉ rest :=
  ((resolver_once_spec argsBase wHappy).1 (by decide) rfl rfl).1

theorem truthyS_some_of_ne {s : String} (h : s ≠ "") : truthyS (some s) = true := by
  simp [truthyS, h]

theorem mediaStage_nokeys (storyId : Option Int) (title content : String)
    (date : Option String) (keepTmp : Bool) (poll : Int) (refs : List String)
    (ipr vpr : String) (w : OWorld) (ji jv ju jw : JsonObj) (ip vp : String)
    (himg : w.imageGen.rc = 0) (himgo : w.imageGen.out = some ji)
    (hjip : ji.path = some ip) (hip : ip ≠ "") (hipe : w.pathExists ip = true)
    (hvid : w.videoGen.rc = 0) (hvido : w.videoGen.out = some jv)
    (hjvp : jv.path = some vp) (hvp : vp ≠ "") (hvpe : w.pathExists vp = true)
    (hff : w.ffmpegOk = true)
    (hiu : w.imgUpload.rc = 0)
    (hius : w.imgUpload.status = "200" ∨ w.imgUpload.status = "201")
    (hib : w.imgUpload.body = some ju)
    (hvu : w.vidUpload.rc = 0)
    (hvus : w.vidUpload.status = "200" ∨ w.vidUpload.status = "201")
    (hvb : w.vidUpload.body = some jw)
    (hkey : truthyS ju.key = false ∨ truthyS jw.key = false) :
    (mediaStage storyId title content date keepTmp poll refs ipr vpr w).result =
      Except.error (ExitInfo.msg "Upload did not return media keys.") ∧
    (∀ i pl, Event.curlStoryPut i pl ∉
      (mediaStage storyId title content date keepTmp poll refs ipr vpr w).trace) ∧
    (∀ pl, Event.curlStoryPost pl ∉
      (mediaStage storyId title content date keepTmp poll refs ipr vpr w).trace) := by
  have hkk : (truthyS ju.key && truthyS jw.key) = false := by
    rcases hkey with h | h <;> simp [h]
  rcases hius with hi | hi <;> rcases hvus with hv | hv <;>
    simp [mediaStage, uploadStage, curlJson, Run.pre, Run.fail,
      himg, himgo, hjip, hip, hipe, hvid, hvido, hjvp, hvp, hvpe, hff,
      hiu, hi, hib, hvu, hv, hvb, hkk]

/-- C8: in every orchestrator run that reaches the media-upload step (all
prior steps succeed), if either upload response lacks a truthy key the run
terminates with SystemExit "Upload did not return media keys." (nonzero
exit) and no story create or update request is ever issued. -/
theorem upload_keys_required (args : Args) (w : OWorld) (content : String)
    (ji jv ju jw : JsonObj) (ip vp : String)
    (hs : startupOk w) (hr : w.readText = some content)
    (hdate : truthyS args.date = true ∨ truthyI args.storyId = true ∨ w.resolver.rc = 0)
    (himg : w.imageGen.rc = 0) (himgo : w.imageGen.out = some ji)
    (hjip : ji.path = some ip) (hip : ip ≠ "") (hipe : w.pathExists ip = true)
    (hvid : w.videoGen.rc = 0) (hvido : w.videoGen.out = some jv)
    (hjvp : jv.path = some vp) (hvp : vp ≠ "") (hvpe : w.pathExists vp = true)
    (hff : w.ffmpegOk = true)
    (hiu : w.imgUpload.rc = 0)
    (hius : w.imgUpload.status = "200" ∨ w.imgUpload.status = "201")
    (hib : w.imgUpload.body = some ju)
    (hvu : w.vidUpload.rc = 0)
    (hvus : w.vidUpload.status = "200" ∨ w.vidUpload.status = "201")
    (hvb : w.vidUpload.body = some jw)
    (hkey : truthyS ju.key = false ∨ truthyS jw.key = false) :
    (mainRun args w).result = Except.error (ExitInfo.msg "Upload did not return media keys.") ∧
    (∀ i pl, Event.curlStoryPut i pl ∉ (mainRun args w).trace) ∧
    (∀ pl, Event.curlStoryPost pl ∉ (mainRun args w).trace) := by
  rw [mainRun_startup args w content hs hr]
  unfold dateStage
  by_cases hcond : (!truthyS args.date && !truthyI args.storyId) = true
  · have hrc : w.resolver.rc = 0 := by
      rcases hdate with h | h | h
      · rw [h] at hcond; simp at hcond
      · rw [h] at hcond; simp at hcond
      · exact h
    rw [if_pos hcond, if_neg (by simp [hrc])]
    have hm := mediaStage_nokeys args.storyId args.title content
      (some (pyStrip w.resolver.out)) args.keepTmp args.pollSeconds args.refImage
      (orS args.imagePrompt (default_image_prompt w.sha256hex args.title content))
      (orS args.videoPrompt (default_video_prompt w.sha256hex args.title content)) w
      ji jv ju jw ip vp himg himgo hjip hip hipe hvid hvido hjvp hvp hvpe hff
      hiu hius hib hvu hvus hvb hkey
    refine ⟨by simp [Run.pre, hm.1], ?_, ?_⟩
    · intro i pl
      simp [Run.pre]
      exact hm.2.1 i pl
    · intro pl
      simp [Run.pre]
      exact hm.2.2 pl
  · rw [if_neg hcond]
    exact mediaStage_nokeys args.storyId args.title content args.date args.keepTmp
      args.pollSeconds args.refImage
      (orS args.imagePrompt (default_image_prompt w.sha256hex args.title content))
      (orS args.videoPrompt (default_video_prompt w.sha256hex args.title content)) w
      ji jv ju jw ip vp himg himgo hjip hip hipe hvid hvido hjvp hvp hvpe hff
      hiu hius hib hvu hvus hvb hkey

/-- Oracle identical to the happy one except that the video upload response
has no key field. -/
def wNoKeys : OWorld :=
  { wHappy with vidUpload := ⟨0, "200", some { path := none, key := none, id := none }⟩ }

/-- Witness for C8: with a concrete run whose video upload returns no key,
the orchestrator exits with the message and never touches the story API. -/
theorem upload_keys_required_witness :
    (mainRun argsBase wNoKeys).result =
      Except.error (ExitInfo.msg "Upload did not return media keys.") :=
  (upload_keys_required argsBase wNoKeys "Once upon a time."
    { path := some "/tmp/img.jpg" } { path := some "/tmp/vid.mp4" }
    { key := some "imgkey" } { path := none, key := none, id := none }
    "/tmp/img.jpg" "/tmp/vid.mp4"
    (by decide) rfl (Or.inr (Or.inr rfl)) rfl rfl rfl (by decide) rfl
    rfl rfl rfl (by decide) rfl rfl rfl (Or.inl rfl) rfl rfl (Or.inl rfl) rfl
    (Or.inr rfl)).1

theorem mem_removalsOf (p : String) : ∀ tr : List Event,
    (Event.removeFile p ∈ tr ↔ p ∈ removalsOf tr) := by
  intro tr
  induction tr with
  | nil => simp [removalsOf]
  | cons e rest ih =>
    cases e <;> simp [removalsOf, ih]

theorem mediaStage_happy_update (storyId : Option Int) (title content : String)
    (date : Option String) (keepTmp : Bool) (poll : Int) (refs : List String)
    (ipr vpr : String) (w : OWorld) (ji jv ju jw js : JsonObj) (ip vp ik vk : String)
    (hsid : truthyI storyId = true)
    (himg : w.imageGen.rc = 0) (himgo : w.imageGen.out = some ji)
    (hjip : ji.path = some ip) (hip : ip ≠ "") (hipe : w.pathExists ip = true)
    (hvid : w.videoGen.rc = 0) (hvido : w.videoGen.out = some jv)
    (hjvp : jv.path = some vp) (hvp : vp ≠ "") (hvpe : w.pathExists vp = true)
    (hff : w.ffmpegOk = true)
    (hiu : w.imgUpload.rc = 0)
    (hius : w.imgUpload.status = "200" ∨ w.imgUpload.status = "201")
    (hib : w.imgUpload.body = some ju) (hjuk : ju.key = some ik) (hik : ik ≠ "")
    (hvu : w.vidUpload.rc = 0)
    (hvus : w.vidUpload.status = "200" ∨ w.vidUpload.status = "201")
    (hvb : w.vidUpload.body = some jw) (hjwk : jw.key = some vk) (hvk : vk ≠ "")
    (hst : w.storyResp.rc = 0)
    (hsts : w.storyResp.status = "200" ∨ w.storyResp.status = "201")
    (hstb : w.storyResp.body = some js) :
    mediaStage storyId title content date keepTmp poll refs ipr vpr w =
      ⟨[Event.imageGenRun refs ipr,
        Event.videoGenRun ip vpr poll,
        Event.ffmpegRun vp (encodedPathOf w.encRand),
        Event.curlMediaUpload ip,
        Event.removeFile (scratchPath w.imgScratchRand),
        Event.curlMediaUpload (encodedPathOf w.encRand),
        Event.removeFile (scratchPath w.vidScratchRand),
        Event.writeFile (payloadPathOf w.payloadRand),
        Event.curlStoryPut (storyId.getD 0) (mediaPayload ik vk),
        Event.removeFile (scratchPath w.storyScratchRand)] ++
        (if keepTmp then [] else
          [Event.removeFile (payloadPathOf w.payloadRand),
           Event.removeFile (encodedPathOf w.encRand)]),
       Except.ok ⟨title, content, date, ik, vk,
         match js.id with
         | some i => if i = 0 then storyId.getD 0 else i
         | none => storyId.getD 0⟩⟩ := by
  have hkk : (truthyS ju.key && truthyS jw.key) = true := by
    rw [hjuk, hjwk, truthyS_some_of_ne hik, truthyS_some_of_ne hvk]; rfl
  rcases hius with hi | hi <;> rcases hvus with hv | hv <;> rcases hsts with h3 | h3 <;>
    simp [mediaStage, uploadStage, storyStage, cleanupStage, curlJson, Run.pre, Run.fail,
      himg, himgo, hjip, hip, hipe, hvid, hvido, hjvp, hvp, hvpe, hff,
      hiu, hi, hib, hjuk, hvu, hv, hvb, hjwk, hkk, hst, h3, hstb, hsid,
      truthyS_some_of_ne hik, truthyS_some_of_ne hvk]

theorem mediaStage_happy_create (storyId : Option Int) (title content : String)
    (date : Option String) (keepTmp : Bool) (poll : Int) (refs : List String)
    (ipr vpr : String) (w : OWorld) (ji jv ju jw js : JsonObj) (ip vp ik vk : String)
    (sid : Int)
    (hsid : truthyI storyId = false)
    (himg : w.imageGen.rc = 0) (himgo : w.imageGen.out = some ji)
    (hjip : ji.path = some ip) (hip : ip ≠ "") (hipe : w.pathExists ip = true)
    (hvid : w.videoGen.rc = 0) (hvido : w.videoGen.out = some jv)
    (hjvp : jv.path = some vp) (hvp : vp ≠ "") (hvpe : w.pathExists vp = true)
    (hff : w.ffmpegOk = true)
    (hiu : w.imgUpload.rc = 0)
    (hius : w.imgUpload.status = "200" ∨ w.imgUpload.status = "201")
    (hib : w.imgUpload.body = some ju) (hjuk : ju.key = some ik) (hik : ik ≠ "")
    (hvu : w.vidUpload.rc = 0)
    (hvus : w.vidUpload.status = "200" ∨ w.vidUpload.status = "201")
    (hvb : w.vidUpload.body = some jw) (hjwk : jw.key = some vk) (hvk : vk ≠ "")
    (hst : w.storyResp.rc = 0)
    (hsts : w.storyResp.status = "200" ∨ w.storyResp.status = "201")
    (hstb : w.storyResp.body = some js) (hjsid : js.id = some sid) (hsid0 : sid ≠ 0) :
    mediaStage storyId title content date keepTmp poll refs ipr vpr w =
      ⟨[Event.imageGenRun refs ipr,
        Event.videoGenRun ip vpr poll,
        Event.ffmpegRun vp (encodedPathOf w.encRand),
        Event.curlMediaUpload ip,
        Event.removeFile (scratchPath w.imgScratchRand),
        Event.curlMediaUpload (encodedPathOf w.encRand),
        Event.removeFile (scratchPath w.vidScratchRand),
        Event.writeFile (payloadPathOf w.payloadRand),
        Event.curlStoryPost (createPayload title content date ik vk),
        Event.removeFile (scratchPath w.storyScratchRand)] ++
        (if keepTmp then [] else
          [Event.removeFile (payloadPathOf w.payloadRand),
           Event.removeFile (encodedPathOf w.encRand)]),
       Except.ok ⟨title, content, date, ik, vk, sid⟩⟩ := by
  have hkk : (truthyS ju.key && truthyS jw.key) = true := by
    rw [hjuk, hjwk, truthyS_some_of_ne hik, truthyS_some_of_ne hvk]; rfl
  rcases hius with hi | hi <;> rcases hvus with hv | hv <;> rcases hsts with h3 | h3 <;>
    simp [mediaStage, uploadStage, storyStage, cleanupStage, curlJson, Run.pre, Run.fail,
      himg, himgo, hjip, hip, hipe, hvid, hvido, hjvp, hvp, hvpe, hff,
      hiu, hi, hib, hjuk, hvu, hv, hvb, hjwk, hkk, hst, h3, hstb, hsid, hjsid, hsid0,
      truthyS_some_of_ne hik, truthyS_some_of_ne hvk]

/-- C9 counterexample: even with --keep-tmp, a successful concrete run still
removes files: the scratch file holding the first curl response is deleted
by curl_json, contradicting the claim that with --keep-tmp no file is
removed. -/
theorem keep_tmp_still_removes_cex :
    Event.removeFile (scratchPath "c1") ∈
      (mainRun { argsBase with keepTmp := true } wHappy).trace := by
  decide

/-- C9 (amended): on every successful orchestrator run the files removed are
exactly the three curl response scratch files plus, without --keep-tmp, the
payload JSON file and the transcoded video file at the end (with --keep-tmp
the final cleanup removes nothing); nothing outside those five names — in
particular neither raw generator output — is ever removed. -/
theorem cleanup_spec (args : Args) (w : OWorld) (content : String)
    (ji jv ju jw js : JsonObj) (ip vp ik vk : String) (sid : Int)
    (hs : startupOk w) (hr : w.readText = some content)
    (hdate : truthyS args.date = true ∨ truthyI args.storyId = true ∨ w.resolver.rc = 0)
    (himg : w.imageGen.rc = 0) (himgo : w.imageGen.out = some ji)
    (hjip : ji.path = some ip) (hip : ip ≠ "") (hipe : w.pathExists ip = true)
    (hvid : w.videoGen.rc = 0) (hvido : w.videoGen.out = some jv)
    (hjvp : jv.path = some vp) (hvp : vp ≠ "") (hvpe : w.pathExists vp = true)
    (hff : w.ffmpegOk = true)
    (hiu : w.imgUpload.rc = 0)
    (hius : w.imgUpload.status = "200" ∨ w.imgUpload.status = "201")
    (hib : w.imgUpload.body = some ju) (hjuk : ju.key = some ik) (hik : ik ≠ "")
    (hvu : w.vidUpload.rc = 0)
    (hvus : w.vidUpload.status = "200" ∨ w.vidUpload.status = "201")
    (hvb : w.vidUpload.body = some jw) (hjwk : jw.key = some vk) (hvk : vk ≠ "")
    (hst : w.storyResp.rc = 0)
    (hsts : w.storyResp.status = "200" ∨ w.storyResp.status = "201")
    (hstb : w.storyResp.body = some js)
    (hstory : truthyI args.storyId = true ∨
      (truthyI args.storyId = false ∧ js.id = some sid ∧ sid ≠ 0)) :
    removalsOf (mainRun args w).trace =
      [scratchPath w.imgScratchRand, scratchPath w.vidScratchRand,
       scratchPath w.storyScratchRand] ++
      (if args.keepTmp then [] else
        [payloadPathOf w.payloadRand, encodedPathOf w.encRand]) ∧
    (∃ s, (mainRun args w).result = Except.ok s) ∧
    (∀ p, Event.removeFile p ∈ (mainRun args w).trace →
      p ∈ [scratchPath w.imgScratchRand, scratchPath w.vidScratchRand,
        scratchPath w.storyScratchRand, payloadPathOf w.payloadRand,
        encodedPathOf w.encRand]) := by
  have hmedia : ∀ date2 : Option String,
      removalsOf (mediaStage args.storyId args.title content date2 args.keepTmp
        args.pollSeconds args.refImage
        (orS args.imagePrompt (default_image_prompt w.sha256hex args.title content))
        (orS args.videoPrompt (default_video_prompt w.sha256hex args.title content))
        w).trace =
        [scratchPath w.imgScratchRand, scratchPath w.vidScratchRand,
         scratchPath w.storyScratchRand] ++
        (if args.keepTmp then [] else
          [payloadPathOf w.payloadRand, encodedPathOf w.encRand]) ∧
      (∃ s, (mediaStage args.storyId args.title content date2 args.keepTmp
        args.pollSeconds args.refImage
        (orS args.imagePrompt (default_image_prompt w.sha256hex args.title content))
        (orS args.videoPrompt (default_video_prompt w.sha256hex args.title content))
        w).result = Except.ok s) := by
    intro date2
    rcases hstory with hup | ⟨hcr, hjsid, hsid0⟩
    · rw [mediaStage_happy_update args.storyId args.title content date2 args.keepTmp
        args.pollSeconds args.refImage _ _ w ji jv ju jw js ip vp ik vk hup
        himg himgo hjip hip hipe hvid hvido hjvp hvp hvpe hff
        hiu hius hib hjuk hik hvu hvus hvb hjwk hvk hst hsts hstb]
      constructor
      · cases hkt : args.keepTmp <;> simp [hkt, removalsOf]
      · exact ⟨_, rfl⟩
    · rw [mediaStage_happy_create args.storyId args.title content date2 args.keepTmp
        args.pollSeconds args.refImage _ _ w ji jv ju jw js ip vp ik vk sid hcr
        himg himgo hjip hip hipe hvid hvido hjvp hvp hvpe hff
        hiu hius hib hjuk hik hvu hvus hvb hjwk hvk hst hsts hstb hjsid hsid0]
      constructor
      · cases hkt : args.keepTmp <;> simp [hkt, removalsOf]
      · exact ⟨_, rfl⟩
  have hmain : removalsOf (mainRun args w).trace =
      [scratchPath w.imgScratchRand, scratchPath w.vidScratchRand,
       scratchPath w.storyScratchRand] ++
      (if args.keepTmp then [] else
        [payloadPathOf w.payloadRand, encodedPathOf w.encRand]) ∧
      (∃ s, (mainRun args w).result = Except.ok s) := by
    rw [mainRun_startup args w content hs hr]
    unfold dateStage
    by_cases hcond : (!truthyS args.date && !truthyI args.storyId) = true
    · have hrc : w.resolver.rc = 0 := by
        rcases hdate with h | h | h
        · rw [h] at hcond; simp at hcond
        · rw [h] at hcond; simp at hcond
        · exact h
      rw [if_pos hcond, if_neg (by simp [hrc])]
      have := hmedia (some (pyStrip w.resolver.out))
      refine ⟨?_, ?_⟩
      · exact this.1
      · obtain ⟨s, hsr⟩ := this.2
        exact ⟨s, by simp [Run.pre, hsr]⟩
    · rw [if_neg hcond]
      exact ⟨(hmedia args.date).1, (hmedia args.date).2⟩
  refine ⟨hmain.1, hmain.2, ?_⟩
  intro p hp
  rw [mem_removalsOf, hmain.1] at hp
  cases hkt : args.keepTmp
  · rw [hkt] at hp
    exact hp
  · rw [hkt] at hp
    have hp3 : p ∈ [scratchPath w.imgScratchRand, scratchPath w.vidScratchRand,
        scratchPath w.storyScratchRand] := by simpa using hp
    exact List.mem_append_left _ hp3

/-- Witness for C9 at a concrete successful create run without --keep-tmp:
the removals are the three curl scratch files, then the payload file and
encoded video at the end. -/
theorem cleanup_spec_witness :
    removalsOf (mainRun argsBase wHappy).trace =
      [scratchPath "c1", scratchPath "c2", scratchPath "c3"] ++
      (if argsBase.keepTmp then [] else [payloadPathOf "p1", encodedPathOf "e1"]) :=
  (cleanup_spec argsBase wHappy "Once upon a time."
    { path := some "/tmp/img.jpg" } { path := some "/tmp/vid.mp4" }
    { key := some "imgkey" } { key := some "vidkey" } { id := some 7 }
    "/tmp/img.jpg" "/tmp/vid.mp4" "imgkey" "vidkey" 7
    (by decide) rfl (Or.inr (Or.inr rfl)) rfl rfl rfl (by decide) rfl
    rfl rfl rfl (by decide) rfl rfl rfl (Or.inl rfl) rfl rfl (by decide)
    rfl (Or.inl rfl) rfl rfl (by decide) rfl (Or.inl rfl) rfl
    (Or.inr ⟨rfl, rfl, by decide⟩)).1

theorem storyStage_zero : storyStage (some 0) = storyStage none := by
  funext title content date keepTmp w ik vk ep
  rfl

theorem uploadStage_zero : uploadStage (some 0) = uploadStage none := by
  funext title content date keepTmp w ip ep
  unfold uploadStage
  rw [storyStage_zero]

theorem mediaStage_zero : mediaStage (some 0) = mediaStage none := by
  funext title content date keepTmp poll refs ipr vpr w
  unfold mediaStage
  rw [uploadStage_zero]

theorem dateStage_zero : dateStage (some 0) = dateStage none := by
  funext argDate title content keepTmp poll refs ipr vpr w
  unfold dateStage
  rw [show truthyI (some 0) = truthyI none from rfl, mediaStage_zero]

/-- C10: supplying --story-id 0 behaves exactly like supplying no story id:
the truthiness test on args.story_id is false for 0, so the whole run (its
events — resolver launch included when --date is absent — the full create
payload, the POST rather than a PUT, and its outcome) is identical to the
run with no story id. -/
theorem storyid_zero_like_none (args : Args) (w : OWorld) :
    mainRun { args with storyId := some 0 } w = mainRun { args with storyId := none } w ∧
    truthyI (some 0) = false ∧ truthyI none = false := by
  refine ⟨?_, rfl, rfl⟩
  cases args
  simp only [mainRun, dateStage_zero]
